import Mathlib

set_option maxRecDepth 100000

namespace Relazio

/-!
Shallow embedding of the Relazio plugin example core: the HMAC-SHA256
webhook signing pair from `src/utils/hmac.ts`, the webhook sender from
`src/utils/webhook.ts`, and the asynchronous deep-scan job pipeline from
`src/transforms/deep-scan.ts`.

Byte strings (Node `Buffer` contents / utf8 bytes of JS strings) are
modelled as `List Nat` with every element interpreted mod 256.
-/

/-- Truncate to a 32-bit word, as every SHA-256 step does. -/
def w32 (n : Nat) : Nat := n % 4294967296

/-- Right rotation of a 32-bit word by `k` bits. -/
def rotr (k x : Nat) : Nat := w32 ((x >>> k) ||| (x <<< (32 - k)))

def bsig0 (x : Nat) : Nat := rotr 2 x ^^^ rotr 13 x ^^^ rotr 22 x

def bsig1 (x : Nat) : Nat := rotr 6 x ^^^ rotr 11 x ^^^ rotr 25 x

def ssig0 (x : Nat) : Nat := rotr 7 x ^^^ rotr 18 x ^^^ (x >>> 3)

def ssig1 (x : Nat) : Nat := rotr 17 x ^^^ rotr 19 x ^^^ (x >>> 10)

/-- SHA-256 choice function; complement realized as xor with `2^32 - 1`. -/
def ch (x y z : Nat) : Nat := (x &&& y) ^^^ ((x ^^^ 4294967295) &&& z)

def maj (x y z : Nat) : Nat := (x &&& y) ^^^ (x &&& z) ^^^ (y &&& z)

/-- The 64 SHA-256 round constants of FIPS 180-4 (first 32 fractional bits
of the cube roots of the first 64 primes), in decimal. -/
def K256 : List Nat :=
  [1116352408, 1899447441, 3049323471, 3921009573, 961987163, 1508970993,
   2453635748, 2870763221, 3624381080, 310598401, 607225278, 1426881987,
   1925078388, 2162078206, 2614888103, 3248222580, 3835390401, 4022224774,
   264347078, 604807628, 770255983, 1249150122, 1555081692, 1996064986,
   2554220882, 2821834349, 2952996808, 3210313671, 3336571891, 3584528711,
   113926993, 338241895, 666307205, 773529912, 1294757372, 1396182291,
   1695183700, 1986661051, 2177026350, 2456956037, 2730485921, 2820302411,
   3259730800, 3345764771, 3516065817, 3600352804, 4094571909, 275423344,
   430227734, 506948616, 659060556, 883997877, 958139571, 1322822218,
   1537002063, 1747873779, 1955562222, 2024104815, 2227730452, 2361852424,
   2428436474, 2756734187, 3204031479, 3329325298]

/-- The eight 32-bit working variables of the SHA-256 compression loop. -/
structure Hash8 where
  a : Nat
  b : Nat
  c : Nat
  d : Nat
  e : Nat
  f : Nat
  g : Nat
  h : Nat
deriving DecidableEq

/-- SHA-256 initial hash value of FIPS 180-4, in decimal. -/
def H0 : Hash8 :=
  ⟨1779033703, 3144134277, 1013904242, 2773480762,
   1359893119, 2600822924, 528734635, 1541459225⟩

/-- One SHA-256 compression round with constant `ki` and schedule word `wi`. -/
def round1 (ki wi : Nat) (s : Hash8) : Hash8 :=
  let t1 := w32 (s.h + bsig1 s.e + ch s.e s.f s.g + ki + wi)
  let t2 := w32 (bsig0 s.a + maj s.a s.b s.c)
  ⟨w32 (t1 + t2), s.a, s.b, s.c, w32 (s.d + t1), s.e, s.f, s.g⟩

/-- Run the 64 rounds, consuming constants and schedule words in lockstep. -/
def roundsGo : List Nat → List Nat → Hash8 → Hash8
  | k :: ks, w :: ws, s => roundsGo ks ws (round1 k w s)
  | _, _, s => s

/-- Next message-schedule word from the 16 most recent ones. -/
def extendStep (ws : List Nat) : Nat :=
  let n := ws.length
  w32 (ws.getD (n - 16) 0 + ssig0 (ws.getD (n - 15) 0) + ws.getD (n - 7) 0
        + ssig1 (ws.getD (n - 2) 0))

/-- Append `k` extension words to the schedule. -/
def extendN : Nat → List Nat → List Nat
  | 0, ws => ws
  | Nat.succ k, ws => extendN k (ws ++ [extendStep ws])

/-- Big-endian 32-bit words from bytes. -/
def bytesToWords : List Nat → List Nat
  | a :: b :: c :: d :: rest =>
      (a % 256 * 16777216 + b % 256 * 65536 + c % 256 * 256 + d % 256) :: bytesToWords rest
  | _ => []

/-- Big-endian bytes from 32-bit words. -/
def wordsToBytes : List Nat → List Nat
  | [] => []
  | w :: ws => (w >>> 24) % 256 :: (w >>> 16) % 256 :: (w >>> 8) % 256 :: w % 256 :: wordsToBytes ws

/-- Split a word list into 16-word blocks (the padded input is always a
multiple of 16 words). -/
def chunks16 : List Nat → List (List Nat)
  | w0 :: w1 :: w2 :: w3 :: w4 :: w5 :: w6 :: w7 :: w8 :: w9 :: w10 :: w11 :: w12 :: w13 :: w14 :: w15 :: rest =>
      [w0, w1, w2, w3, w4, w5, w6, w7, w8, w9, w10, w11, w12, w13, w14, w15] :: chunks16 rest
  | _ => []

/-- The 8-byte big-endian bit-length trailer of SHA-256 padding. -/
def lenBytes (ml : Nat) : List Nat :=
  let L := ml * 8
  [(L >>> 56) % 256, (L >>> 48) % 256, (L >>> 40) % 256, (L >>> 32) % 256,
   (L >>> 24) % 256, (L >>> 16) % 256, (L >>> 8) % 256, L % 256]

/-- SHA-256 padding: `0x80`, zeros to 56 mod 64, then the bit length. -/
def pad (msg : List Nat) : List Nat :=
  msg ++ 128 :: List.replicate ((119 - msg.length % 64) % 64) 0 ++ lenBytes msg.length

/-- Compress one 16-word chunk into the running hash state. -/
def compress (s : Hash8) (chunk : List Nat) : Hash8 :=
  let t := roundsGo K256 (extendN 48 chunk) s
  ⟨w32 (s.a + t.a), w32 (s.b + t.b), w32 (s.c + t.c), w32 (s.d + t.d),
   w32 (s.e + t.e), w32 (s.f + t.f), w32 (s.g + t.g), w32 (s.h + t.h)⟩

/-- SHA-256 of a byte string, as its 32 digest bytes. -/
def sha256 (msg : List Nat) : List Nat :=
  let final := (chunks16 (bytesToWords (pad msg))).foldl compress H0
  wordsToBytes [final.a, final.b, final.c, final.d, final.e, final.f, final.g, final.h]

/-- HMAC-SHA256 digest bytes, block size 64: keys longer than a block are
hashed, shorter keys are zero-padded; inner pad `0x36`, outer pad `0x5c`. -/
def hmacSha256 (secret msg : List Nat) : List Nat :=
  let k0 := if secret.length > 64 then sha256 secret else secret
  let kp := k0 ++ List.replicate (64 - k0.length) 0
  sha256 (kp.map (fun b => b ^^^ 92) ++ sha256 (kp.map (fun b => b ^^^ 54) ++ msg))

/-- Lower-case hex digit of a value below 16, as an ASCII byte. -/
def hexDigit (n : Nat) : Nat := if n < 10 then 48 + n else 87 + n

/-- Lower-case hex encoding of a byte string, as ASCII bytes. -/
def hexBytes : List Nat → List Nat
  | [] => []
  | b :: bs => hexDigit (b % 256 / 16) :: hexDigit (b % 16) :: hexBytes bs

/-- ASCII bytes of the fixed algorithm tag string. -/
def sigTag : List Nat := [115, 104, 97, 50, 53, 54, 61]

/-- Embedding of `signWebhook` from `src/utils/hmac.ts`: HMAC-SHA256 over the
payload keyed by the secret, hex-encoded and prefixed with the tag. -/
def signWebhook (payload secret : List Nat) : List Nat :=
  sigTag ++ hexBytes (hmacSha256 secret payload)

/-- Embedding of `verifyWebhookSignature` from `src/utils/hmac.ts`: recompute
the expected signature, return false on buffer length mismatch, otherwise
compare byte-for-byte (`crypto.timingSafeEqual` on equal-length buffers is
exact equality and cannot throw). -/
def verifyWebhookSignature (payload signature secret : List Nat) : Bool :=
  if (signWebhook payload secret).length = signature.length
  then signWebhook payload secret == signature
  else false

/-- One value of the in-memory `jobs` map of `src/transforms/deep-scan.ts`:
the stored object literal has exactly a `status` string and a `progress`
number. -/
structure JobRecord where
  status : String
  progress : Nat
deriving DecidableEq

/-- Environment of one background run of `processDeepScan`, capturing every
external outcome the code branches on: whether `process.env.WEBHOOK_SECRET`
is set (and its bytes), whether one of the four awaited scan steps rejects
(`some i` rejects during step `i+1`), and whether each webhook POST attempt
succeeds (reaches the callback with a 2xx response). -/
structure Env where
  secret : Option (List Nat)
  workError : Option (Fin 4)
  successOk : Bool
  failOk : Bool

/-- One `sendWebhook` attempt from `src/utils/webhook.ts`: the payload
`status` field of the body that was POSTed, and whether the POST succeeded
(on failure `sendWebhook` logs and rethrows). -/
structure SendEvent where
  status : String
  delivered : Bool
deriving DecidableEq

/-- Result of the `processDeepScan` promise: the sequence of `jobs.set`
writes it performs, the webhook send attempts, and whether the promise
rejected (so that the `.catch` handler in `scanIp` fires). -/
structure ProcResult where
  writes : List JobRecord
  sends : List SendEvent
  escaped : Bool

/-- The `jobs.set` calls made before the awaited scan step `i+1` throws:
progress 10 is written before step 1 (reverse DNS), 30 after it, 60 after
step 2 (port scan), 80 after step 3 (reputation), 90 after step 4
(associated domains). -/
def stepWrites (i : Fin 4) : List JobRecord :=
  List.take (i.val + 1)
    [⟨"processing", 10⟩, ⟨"processing", 30⟩, ⟨"processing", 60⟩, ⟨"processing", 80⟩]

/-- Embedding of `processDeepScan` from `src/transforms/deep-scan.ts`.
The secret is read from the environment before the `try` block, so a
missing secret rejects the promise with no write and no send. Inside
`try`, the five progress writes and the `completed` write happen in
order; the `catch` block — which also spans the success-webhook send —
overwrites the record with status `failed`, progress 0 and attempts a
failure webhook, rethrowing delivery errors out of the promise. -/
def processDeepScan (env : Env) : ProcResult :=
  match env.secret with
  | none => ⟨[], [], true⟩
  | some _ =>
    match env.workError with
    | some i =>
        ⟨stepWrites i ++ [⟨"failed", 0⟩], [⟨"failed", env.failOk⟩], !env.failOk⟩
    | none =>
        let okWrites := [⟨"processing", 10⟩, ⟨"processing", 30⟩, ⟨"processing", 60⟩,
                         ⟨"processing", 80⟩, ⟨"processing", 90⟩, ⟨"completed", 100⟩]
        if env.successOk then
          ⟨okWrites, [⟨"completed", true⟩], false⟩
        else
          ⟨okWrites ++ [⟨"failed", 0⟩], [⟨"completed", false⟩, ⟨"failed", env.failOk⟩],
           !env.failOk⟩

/-- Writes and sends of one whole background job: the initial
`jobs.set(jobId, processing/0)` performed by `scanIp` before launching
the promise, then `processDeepScan`, then the `.catch(...)` handler in
`scanIp` which writes status `failed`, progress 0 when the promise
rejected. -/
structure RunResult where
  writes : List JobRecord
  sends : List SendEvent

/-- The complete trace of `jobs.set` writes and webhook sends for one job. -/
def backgroundRun (env : Env) : RunResult :=
  let p := processDeepScan env
  let w := ⟨"processing", 0⟩ :: p.writes
  if p.escaped then ⟨w ++ [⟨"failed", 0⟩], p.sends⟩ else ⟨w, p.sends⟩

/-- The record left in the `jobs` map after the run: `Map.set` overwrites,
so the final record is the last write. -/
def finalRecord (env : Env) : JobRecord :=
  (backgroundRun env).writes.getLastD ⟨"processing", 0⟩

/-- A status is terminal when it is `completed` or `failed`. -/
def isTerminal (s : String) : Bool := s == "completed" || s == "failed"

/-- The writes whose status is terminal. -/
def terminalWrites (tr : List JobRecord) : List JobRecord :=
  tr.filter (fun r => isTerminal r.status)

/-- The writes performed strictly after the first terminal write. -/
def afterFirstTerminal (tr : List JobRecord) : List JobRecord :=
  (tr.dropWhile (fun r => ! isTerminal r.status)).tail

/-- A list of progress values is non-decreasing. -/
def nondecreasing : List Nat → Bool
  | a :: b :: rest => decide (a ≤ b) && nondecreasing (b :: rest)
  | _ => true

/-- A JSON value, as produced by `res.json`. -/
inductive Json where
  | str : String → Json
  | num : Nat → Json
  | obj : List (String × Json) → Json

/-- The JSON object `res.json(job)` serializes for a stored job record:
exactly a `status` string field and a `progress` number field. -/
def jobJson (r : JobRecord) : Json :=
  Json.obj [("status", Json.str r.status), ("progress", Json.num r.progress)]

/-- The keys of a JSON object. -/
def jsonKeys : Json → List String
  | Json.obj l => l.map Prod.fst
  | _ => []

/-- The two responses of the `getJobStatus` endpoint: HTTP 404 with an
error body, or HTTP 200 with the job JSON. -/
inductive StatusResponse where
  | notFound : StatusResponse
  | ok : Json → StatusResponse

/-- Embedding of `getJobStatus` from `src/transforms/deep-scan.ts`: look the
job up in the `jobs` map (modelled as an association list, first binding
wins, as `Map.get` after `Map.set`); 404 when absent, otherwise the record
as JSON. -/
def getJobStatus (jobs : List (String × JobRecord)) (jobId : String) : StatusResponse :=
  match jobs.lookup jobId with
  | none => StatusResponse.notFound
  | some j => StatusResponse.ok (jobJson j)

/-- The request body fields of `scanIp` that the control flow inspects:
the subject entity's declared type and value. -/
structure SubmitInput where
  entityType : String
  entityValue : String

/-- The `AsyncTransformResponse` sent by `scanIp`, together with the HTTP
status code used to send it. -/
structure AsyncResponse where
  httpStatus : Nat
  asyncFlag : Bool
  jobId : String
  estimatedTime : Nat
deriving DecidableEq

/-- Embedding of the synchronous part of `scanIp` from
`src/transforms/deep-scan.ts`. A non-`ip` entity type throws inside `try`
before the job id is generated and before any `jobs.set`, so the `catch`
sends HTTP 500 with jobId `error` and the map is untouched. Otherwise the
fresh id (modelled as the parameter `newJobId`, standing for the
`Date.now`/random construction) is inserted with status `processing`,
progress 0, and the response returns immediately — the background promise
is launched but not awaited, so the response does not depend on its
outcome. -/
def scanIp (input : SubmitInput) (newJobId : String) (jobs : List (String × JobRecord)) :
    AsyncResponse × List (String × JobRecord) :=
  if input.entityType ≠ "ip" then
    (⟨500, true, "error", 0⟩, jobs)
  else
    (⟨200, true, newJobId, 120⟩, (newJobId, ⟨"processing", 0⟩) :: jobs)

/-! ## Helper lemmas -/

/-- Verification succeeds exactly on the recomputed signature: the source
recomputes `signWebhook`, rejects on length mismatch, and otherwise compares
for equality. -/
theorem verify_true_iff (p c s : List Nat) :
    verifyWebhookSignature p c s = true ↔ c = signWebhook p s := by
  unfold verifyWebhookSignature
  by_cases hl : (signWebhook p s).length = c.length
  · rw [if_pos hl, beq_iff_eq]
    exact eq_comm
  · rw [if_neg hl]
    constructor
    · intro h; exact Bool.noConfusion h
    · intro hc; exact absurd (by rw [hc]) hl

/-- The hex-digit byte determines the digit. -/
theorem hexDigit_inj : ∀ x y, hexDigit x = hexDigit y → x = y := by
  intro x y
  unfold hexDigit
  split <;> split <;> omega

/-- Hex encoding is injective on byte strings. -/
theorem hexBytes_inj : ∀ a b : List Nat, (∀ x ∈ a, x < 256) → (∀ x ∈ b, x < 256) →
    hexBytes a = hexBytes b → a = b := by
  intro a
  induction a with
  | nil =>
      intro b _ _ h
      cases b with
      | nil => rfl
      | cons y ys => simp [hexBytes] at h
  | cons x xs ih =>
      intro b ha hb h
      cases b with
      | nil => simp [hexBytes] at h
      | cons y ys =>
          simp only [hexBytes, List.cons.injEq] at h
          obtain ⟨h1, h2, h3⟩ := h
          have hx : x < 256 := ha x (List.mem_cons_self x xs)
          have hy : y < 256 := hb y (List.mem_cons_self y ys)
          have e1 := hexDigit_inj _ _ h1
          have e2 := hexDigit_inj _ _ h2
          rw [Nat.mod_eq_of_lt hx, Nat.mod_eq_of_lt hy] at e1
          have exy : x = y := by omega
          rw [exy]
          exact congrArg _ (ih ys (fun z hz => ha z (List.mem_cons_of_mem _ hz))
            (fun z hz => hb z (List.mem_cons_of_mem _ hz)) h3)

/-- Every byte emitted by `wordsToBytes` is below 256. -/
theorem wordsToBytes_lt : ∀ ws : List Nat, ∀ x ∈ wordsToBytes ws, x < 256 := by
  intro ws
  induction ws with
  | nil => simp [wordsToBytes]
  | cons w rest ih =>
      simp only [wordsToBytes, List.mem_cons]
      rintro x (h | h | h | h | h)
      · omega
      · omega
      · omega
      · omega
      · exact ih x h

/-- SHA-256 digests are byte strings. -/
theorem sha256_lt (m : List Nat) : ∀ x ∈ sha256 m, x < 256 :=
  fun x hx => wordsToBytes_lt _ x hx

/-- HMAC-SHA256 digests are byte strings. -/
theorem hmacSha256_lt (s m : List Nat) : ∀ x ∈ hmacSha256 s m, x < 256 :=
  fun x hx => sha256_lt _ x hx

/-- Two signature strings agree exactly when the underlying digests do. -/
theorem signWebhook_inj (p q s1 s2 : List Nat) :
    signWebhook p s1 = signWebhook q s2 → hmacSha256 s1 p = hmacSha256 s2 q := by
  intro h
  unfold signWebhook at h
  have h2 : hexBytes (hmacSha256 s1 p) = hexBytes (hmacSha256 s2 q) := by
    exact List.append_cancel_left h
  exact hexBytes_inj _ _ (hmacSha256_lt s1 p) (hmacSha256_lt s2 q) h2

/-! ## Claims -/

/-- C1: for every payload byte string and secret byte string, verifying the
signature produced by signing yields true —
`verifyWebhookSignature(P, signWebhook(P, S), S) = true`. -/
theorem sign_then_verify (p s : List Nat) :
    verifyWebhookSignature p (signWebhook p s) s = true :=
  (verify_true_iff p _ s).mpr rfl

/-- C7: `verifyWebhookSignature` is a total boolean function equal to the
exact-match test against the recomputed signature: it returns false — and
cannot throw — for every candidate that is malformed, of a different length
than the expected `sha256=`-tagged hex string, or simply different from it. -/
theorem verify_total (p c s : List Nat) :
    verifyWebhookSignature p c s = decide (c = signWebhook p s) := by
  by_cases h : c = signWebhook p s
  · rw [(verify_true_iff p c s).mpr h]
    simp [h]
  · have hf : verifyWebhookSignature p c s ≠ true :=
      fun ht => h ((verify_true_iff p c s).mp ht)
    simp [h, Bool.eq_false_iff.mpr hf]

/-- C6 counterexample: the claim "for all P and S1 ≠ S2,
`verify(P, sign(P,S1), S2) = false`" fails on the code: HMAC zero-pads
secrets shorter than the 64-byte block, so the distinct secrets `"a"`
(`[97]`) and `"a\x00"` (`[97, 0]`) produce identical signatures for every
payload, and verification under the other secret succeeds. -/
theorem wrong_secret_verifies :
    ([97] : List Nat) ≠ [97, 0] ∧
      verifyWebhookSignature [97, 98, 99] (signWebhook [97, 98, 99] [97]) [97, 0] = true :=
  ⟨by decide, by decide⟩

/-- C6 amended: a signature verifies under a different secret or payload only
when the two HMAC digests coincide: whenever
`hmacSha256 s1 p ≠ hmacSha256 s2 q` — in particular for generic distinct
secrets and for payload mutations that change the digest — verification of
the signature of `p` under `s1` against payload `q` and secret `s2` returns
false. -/
theorem verify_false_of_hmac_ne (p q s1 s2 : List Nat)
    (hne : hmacSha256 s1 p ≠ hmacSha256 s2 q) :
    verifyWebhookSignature q (signWebhook p s1) s2 = false := by
  have key : signWebhook p s1 ≠ signWebhook q s2 :=
    fun h => hne (signWebhook_inj p q s1 s2 h)
  have hf : verifyWebhookSignature q (signWebhook p s1) s2 ≠ true :=
    fun ht => key ((verify_true_iff q _ s2).mp ht)
  exact Bool.eq_false_iff.mpr hf

/-- C6 witness: a single-byte mutation of the payload `abc` changes the
HMAC digest under secret `k`, so the original signature is rejected. -/
theorem verify_false_of_hmac_ne_witness :
    hmacSha256 [107] [97, 98, 99] ≠ hmacSha256 [107] [98, 98, 99] ∧
      verifyWebhookSignature [98, 98, 99] (signWebhook [97, 98, 99] [107]) [107] = false :=
  ⟨by decide, verify_false_of_hmac_ne [97, 98, 99] [98, 98, 99] [107] [107] (by decide)⟩

/-- C2: evaluation at the failing input. With the secret configured, all four
scan steps succeeding, and only the success-webhook POST failing, the job
record demonstrably reached status `completed`, progress 100, yet the final
record is status `failed`, progress 0 — the `catch` block of
`processDeepScan` spans the webhook send, so a delivery failure
retroactively flips a completed job to failed, and a `failed` webhook is
even POSTed for the successfully completed scan. The claim (and spec §4.4,
§7) says the recorded status must be unaffected by delivery failures. -/
theorem delivery_failure_flips_completed_job :
    ⟨"completed", 100⟩ ∈ (backgroundRun ⟨some [107], none, false, true⟩).writes ∧
    finalRecord ⟨some [107], none, false, true⟩ = ⟨"failed", 0⟩ ∧
    (backgroundRun ⟨some [107], none, false, true⟩).sends =
      [⟨"completed", false⟩, ⟨"failed", true⟩] :=
  ⟨by decide, rfl, rfl⟩

/-- C3 counterexample: in the run where the scan succeeds and the
success-webhook POST fails, two terminal writes are applied to the job —
`completed` and then `failed` — so a second terminal transition is applied
rather than detected and rejected as InvalidTransition (the `jobs` map has
no transition guard at all). -/
theorem second_terminal_write_applied :
    terminalWrites (backgroundRun ⟨some [107], none, false, true⟩).writes =
      [⟨"completed", 100⟩, ⟨"failed", 0⟩] := by
  decide

/-- C3 amended: when the webhook deliveries succeed, each job performs
exactly one terminal write, every earlier write has status `processing`,
and the final record is terminal — but this holds by control flow only;
no InvalidTransition detection exists, and a failed success-delivery
produces a second, applied, terminal write. -/
theorem single_terminal_when_delivery_ok (env : Env)
    (h1 : env.successOk = true) (h2 : env.failOk = true) :
    (terminalWrites (backgroundRun env).writes).length = 1 ∧
    (backgroundRun env).writes.dropLast.all (fun r => r.status == "processing") = true ∧
    isTerminal (finalRecord env).status = true := by
  obtain ⟨s, w, d1, d2⟩ := env
  cases d1 with
  | false => exact Bool.noConfusion h1
  | true =>
      cases d2 with
      | false => exact Bool.noConfusion h2
      | true =>
          rcases w with _ | i
          · cases s <;> exact ⟨rfl, rfl, rfl⟩
          · fin_cases i <;> cases s <;> exact ⟨rfl, rfl, rfl⟩

/-- C3 witness: the fully successful run has exactly one terminal write. -/
theorem single_terminal_when_delivery_ok_witness :
    (terminalWrites (backgroundRun ⟨some [107], none, true, true⟩).writes).length = 1 ∧
    (backgroundRun ⟨some [107], none, true, true⟩).writes.dropLast.all
      (fun r => r.status == "processing") = true ∧
    isTerminal (finalRecord ⟨some [107], none, true, true⟩).status = true :=
  single_terminal_when_delivery_ok ⟨some [107], none, true, true⟩ rfl rfl

/-- C4 counterexample: with no `WEBHOOK_SECRET` on file nothing is sent —
but, against the claim, the failure is not confined to an abandoned
delivery: the secret is read at the start of the background task (not
per-tenant, not at the moment of signing), the scan never runs (no
progress write beyond the initial one even though the work would have
succeeded), and the job itself is marked failed. -/
theorem missing_secret_fails_job_without_running :
    (backgroundRun ⟨none, none, true, true⟩).sends = [] ∧
    (backgroundRun ⟨none, none, true, true⟩).writes =
      [⟨"processing", 0⟩, ⟨"failed", 0⟩] ∧
    finalRecord ⟨none, none, true, true⟩ = ⟨"failed", 0⟩ :=
  ⟨rfl, rfl, rfl⟩

/-- C4 amended: the signing secret is the single process-wide
`WEBHOOK_SECRET`, checked once when the background task starts; whenever it
is absent the task throws immediately: no webhook is ever sent, the scan
performs no step, and the job record ends as status `failed`, progress 0. -/
theorem no_secret_aborts_job (env : Env) (h : env.secret = none) :
    (backgroundRun env).sends = [] ∧
    (backgroundRun env).writes = [⟨"processing", 0⟩, ⟨"failed", 0⟩] ∧
    finalRecord env = ⟨"failed", 0⟩ := by
  obtain ⟨s, w, d1, d2⟩ := env
  cases s with
  | none => exact ⟨rfl, rfl, rfl⟩
  | some v => exact Option.noConfusion h

/-- C4 witness: a run with no secret sends nothing and fails the job. -/
theorem no_secret_aborts_job_witness :
    (backgroundRun ⟨none, some 2, false, false⟩).sends = [] ∧
    (backgroundRun ⟨none, some 2, false, false⟩).writes =
      [⟨"processing", 0⟩, ⟨"failed", 0⟩] ∧
    finalRecord ⟨none, some 2, false, false⟩ = ⟨"failed", 0⟩ :=
  no_secret_aborts_job ⟨none, some 2, false, false⟩ rfl

/-- C5 counterexample: in the run where the scan succeeds and the
success-webhook POST fails, a further write is applied after the first
terminal write and it alters the record (from `completed`/100 to
`failed`/0), against the claim that post-terminal updates are rejected and
leave the record unchanged. -/
theorem record_altered_after_terminal :
    afterFirstTerminal (backgroundRun ⟨some [107], none, false, true⟩).writes =
      [⟨"failed", 0⟩] ∧
    finalRecord ⟨some [107], none, false, true⟩ ≠ ⟨"completed", 100⟩ :=
  ⟨by decide, by decide⟩

/-- C5 amended: in every run the progress values written while the job is
non-terminal are non-decreasing, and when the webhook deliveries succeed
nothing is written after the first terminal write; but no update is ever
"rejected" (the map has no guard), and when the success delivery fails the
record is altered after the terminal state. -/
theorem progress_monotone_until_terminal (env : Env) :
    nondecreasing (((backgroundRun env).writes.takeWhile
      (fun r => ! isTerminal r.status)).map JobRecord.progress) = true ∧
    (env.successOk = true → env.failOk = true →
      afterFirstTerminal (backgroundRun env).writes = []) := by
  obtain ⟨s, w, d1, d2⟩ := env
  rcases w with _ | i
  · cases s <;> cases d1 <;> cases d2 <;>
      exact ⟨rfl, fun h1 h2 => by
        first | rfl | exact Bool.noConfusion h1 | exact Bool.noConfusion h2⟩
  · fin_cases i <;> cases s <;> cases d1 <;> cases d2 <;>
      exact ⟨rfl, fun h1 h2 => by
        first | rfl | exact Bool.noConfusion h1 | exact Bool.noConfusion h2⟩

/-- C5 witness: the fully successful run has non-decreasing progress and no
write after the terminal one. -/
theorem progress_monotone_until_terminal_witness :
    nondecreasing (((backgroundRun ⟨some [107], none, true, true⟩).writes.takeWhile
      (fun r => ! isTerminal r.status)).map JobRecord.progress) = true ∧
    afterFirstTerminal (backgroundRun ⟨some [107], none, true, true⟩).writes = [] :=
  ⟨(progress_monotone_until_terminal ⟨some [107], none, true, true⟩).1,
   (progress_monotone_until_terminal ⟨some [107], none, true, true⟩).2 rfl rfl⟩

/-- C8 counterexample: for an existing job the endpoint returns a JSON body
whose keys are exactly `status` and `progress`; there is no `message`
field, because the stored record has none — against the claim's record
shape of status, progress and message. -/
theorem status_body_has_no_message_field :
    getJobStatus [("j1", ⟨"processing", 42⟩)] "j1" =
      StatusResponse.ok
        (Json.obj [("status", Json.str "processing"), ("progress", Json.num 42)]) ∧
    jsonKeys (jobJson ⟨"processing", 42⟩) = ["status", "progress"] ∧
    "message" ∉ jsonKeys (jobJson ⟨"processing", 42⟩) :=
  ⟨rfl, rfl, by decide⟩

/-- C8 amended: for every jobId the status query returns the stored record
as a JSON object with exactly a `status` and a `progress` field when the
job exists, and a 404 NotFound response when it does not. -/
theorem getJobStatus_found_or_notFound (jobs : List (String × JobRecord))
    (jid : String) (r : JobRecord) :
    (jobs.lookup jid = some r → getJobStatus jobs jid =
      StatusResponse.ok
        (Json.obj [("status", Json.str r.status), ("progress", Json.num r.progress)])) ∧
    (jobs.lookup jid = none → getJobStatus jobs jid = StatusResponse.notFound) := by
  constructor
  · intro h; unfold getJobStatus; rw [h]; rfl
  · intro h; unfold getJobStatus; rw [h]

/-- C8 witness: a present job returns its two-field record, an absent job
returns NotFound. -/
theorem getJobStatus_found_or_notFound_witness :
    getJobStatus [("j1", ⟨"processing", 42⟩)] "j1" =
      StatusResponse.ok
        (Json.obj [("status", Json.str "processing"), ("progress", Json.num 42)]) ∧
    getJobStatus [("j1", ⟨"processing", 42⟩)] "zz" = StatusResponse.notFound :=
  ⟨(getJobStatus_found_or_notFound [("j1", ⟨"processing", 42⟩)] "j1" ⟨"processing", 42⟩).1 rfl,
   (getJobStatus_found_or_notFound [("j1", ⟨"processing", 42⟩)] "zz" ⟨"processing", 42⟩).2 rfl⟩

/-- C9: a submission whose entity type is not `ip` fails synchronously with
the HTTP 500 error response and leaves the job map untouched — no record is
created; a valid submission immediately returns HTTP 200 with the fresh
jobId and estimated time 120, having inserted the record with status
`processing`, progress 0 (the background promise is launched unawaited, so
the response does not depend on its outcome). -/
theorem scanIp_validates_then_registers (input : SubmitInput) (jid : String)
    (jobs : List (String × JobRecord)) :
    (input.entityType ≠ "ip" →
      scanIp input jid jobs = (⟨500, true, "error", 0⟩, jobs)) ∧
    (input.entityType = "ip" →
      scanIp input jid jobs = (⟨200, true, jid, 120⟩, (jid, ⟨"processing", 0⟩) :: jobs) ∧
      (scanIp input jid jobs).2.lookup jid = some ⟨"processing", 0⟩) := by
  constructor
  · intro h; unfold scanIp; rw [if_pos h]
  · intro h
    have hcond : ¬ (input.entityType ≠ "ip") := fun hne => hne h
    refine ⟨by unfold scanIp; rw [if_neg hcond], ?_⟩
    unfold scanIp
    rw [if_neg hcond]
    simp [List.lookup]

/-- C9 witness: a `domain` submission is rejected with 500 and no record; an
`ip` submission is accepted with the fresh job registered. -/
theorem scanIp_validates_then_registers_witness :
    scanIp ⟨"domain", "1.2.3.4"⟩ "job-1" [] = (⟨500, true, "error", 0⟩, []) ∧
    scanIp ⟨"ip", "8.8.8.8"⟩ "job-1" [] =
      (⟨200, true, "job-1", 120⟩, [("job-1", ⟨"processing", 0⟩)]) :=
  ⟨(scanIp_validates_then_registers ⟨"domain", "1.2.3.4"⟩ "job-1" []).1 (by decide),
   ((scanIp_validates_then_registers ⟨"ip", "8.8.8.8"⟩ "job-1" []).2 rfl).1⟩

/-- C10: whenever the background scan fails — the secret is missing, a scan
step throws, or the success-webhook delivery throws — the job record is
overwritten with status `failed`, progress 0, discarding any previously
recorded progress, and the status query thereafter reports progress 0. -/
theorem failed_scan_resets_record (env : Env)
    (h : env.secret = none ∨ env.workError ≠ none ∨ env.successOk = false) :
    finalRecord env = ⟨"failed", 0⟩ ∧
    getJobStatus [("j", finalRecord env)] "j" =
      StatusResponse.ok
        (Json.obj [("status", Json.str "failed"), ("progress", Json.num 0)]) := by
  obtain ⟨s, w, d1, d2⟩ := env
  have hf : finalRecord ⟨s, w, d1, d2⟩ = ⟨"failed", 0⟩ := by
    rcases h with h | h | h
    · cases s with
      | none => rfl
      | some v => exact Option.noConfusion h
    · rcases w with _ | i
      · exact absurd rfl h
      · cases s with
        | none => rfl
        | some v => fin_cases i <;> cases d2 <;> rfl
    · cases d1 with
      | true => exact Bool.noConfusion h
      | false =>
          cases s with
          | none => rfl
          | some v =>
              rcases w with _ | i
              · cases d2 <;> rfl
              · fin_cases i <;> cases d2 <;> rfl
  exact ⟨hf, by rw [hf]; rfl⟩

/-- C10 witness: a scan that throws during its third step ends with the
record reset to `failed`, progress 0, as the status query then reports. -/
theorem failed_scan_resets_record_witness :
    finalRecord ⟨some [107], some 2, true, true⟩ = ⟨"failed", 0⟩ ∧
    getJobStatus [("j", finalRecord ⟨some [107], some 2, true, true⟩)] "j" =
      StatusResponse.ok
        (Json.obj [("status", Json.str "failed"), ("progress", Json.num 0)]) :=
  failed_scan_resets_record ⟨some [107], some 2, true, true⟩
    (Or.inr (Or.inl (by decide)))

end Relazio
